import Mathlib

/-!
A shallow embedding of `hpsklearn/components/ensemble/_forest.py`: the parameter
distribution library, the validation layer, the space composer `_forest_hp_space`,
and the four family entry points, together with theorems settling the specification
claims about them.

Python floats are modelled as rationals (the code only constructs float literals and
compares them with `<` and `>`, which agree with rational order on all inputs the
claims mention). Python dicts are modelled as association lists in insertion order.
The hyperopt pyll primitives (`hp.choice`, `hp.pchoice`, `hp.uniform`,
`hp.qloguniform`, `hp.randint`, `scope.int`) are modelled as constructors of an
expression type recording the node name and structure; they are external library
calls that `_forest.py` only uses to build nodes, never to sample.
-/

/-- A Python runtime value, as passed for hyperparameter overrides. -/
inductive PyVal where
  | none
  | int (n : Int)
  | float (q : ℚ)
  | str (s : String)
  | bool (b : Bool)
deriving DecidableEq

/-- Python truthiness, `bool(v)`. -/
def PyVal.truthy : PyVal → Bool
  | .none => false
  | .int n => n != 0
  | .float q => q != 0
  | .str s => s != ""
  | .bool b => b

/-- Python `v is None`. -/
def PyVal.isNoneV : PyVal → Bool
  | .none => true
  | _ => false

/-- Python `v is False`: identity with the `False` singleton, so only the bool
`False` qualifies (`0` and `0.0` do not). -/
def PyVal.isFalseV : PyVal → Bool
  | .bool false => true
  | _ => false

/-- Python `isinstance(v, float)`. Ints and bools are not floats. -/
def PyVal.isFloat : PyVal → Bool
  | .float _ => true
  | _ => false

/-- Python `isinstance(v, str)`. -/
def PyVal.isStr : PyVal → Bool
  | .str _ => true
  | _ => false

/-- Python `str(v)`, as interpolated into validation error messages. Integral
floats render as in Python (for example `0.0`); non-integral floats render as a
fraction, an approximation of Python float repr that no claim depends on. -/
def PyVal.pyStr : PyVal → String
  | .none => "None"
  | .int n => toString n
  | .float q => if q.den == 1 then toString q.num ++ ".0" else toString q.num ++ "/" ++ toString q.den
  | .str s => s
  | .bool true => "True"
  | .bool false => "False"

/-- Python `any(l)`: returns a `bool` (never `None`). -/
def pyAny (l : List PyVal) : PyVal :=
  PyVal.bool (l.any PyVal.truthy)

/-- A numeric argument handed to a distribution primitive: either a plain number
or `np.log` of one (stored unevaluated, since the logarithm is irrational). -/
inductive PyNum where
  | lit (q : ℚ)
  | npLog (q : ℚ)
deriving DecidableEq

/-- A hyperopt pyll expression: a literal value, or a named stochastic node built
from the primitives used in `_forest.py`. -/
inductive Expr where
  | lit (v : PyVal)
  | choice (name : String) (options : List Expr)
  | pchoice (name : String) (options : List (ℚ × Expr))
  | uniform (name : String) (low high : PyNum)
  | qloguniform (name : String) (low high q : PyNum)
  | randint (name : String) (upper : Nat)
  | scope_int (e : Expr)

mutual

/-- The named leaf nodes of an expression, in construction order: the node's own
name first, then the names inside its options. -/
def Expr.leafNames : Expr → List String
  | .lit _ => []
  | .choice n os => n :: exprListLeafNames os
  | .pchoice n os => n :: weightedListLeafNames os
  | .uniform n _ _ => [n]
  | .qloguniform n _ _ _ => [n]
  | .randint n _ => [n]
  | .scope_int e => Expr.leafNames e

/-- Leaf names of a list of option expressions, in order. -/
def exprListLeafNames : List Expr → List String
  | [] => []
  | e :: es => Expr.leafNames e ++ exprListLeafNames es

/-- Leaf names of a weighted option list, in order. -/
def weightedListLeafNames : List (ℚ × Expr) → List String
  | [] => []
  | (_, e) :: es => Expr.leafNames e ++ weightedListLeafNames es

end

/-- Source `hp.choice(name, ["gini", "entropy"])` for the classifier criterion. -/
def _forest_classifier_criterion (name : String) : Expr :=
  Expr.choice name [Expr.lit (PyVal.str "gini"), Expr.lit (PyVal.str "entropy")]

/-- Source `hp.choice(name, ["squared_error", "absolute_error"])` for the random forest
regressor criterion. -/
def _random_forest_regressor_criterion (name : String) : Expr :=
  Expr.choice name [Expr.lit (PyVal.str "squared_error"), Expr.lit (PyVal.str "absolute_error")]

/-- Source `hp.choice(name, ["squared_error", "absolute_error"])` for the extra trees
regressor criterion. -/
def _extra_trees_regressor_criterion (name : String) : Expr :=
  Expr.choice name [Expr.lit (PyVal.str "squared_error"), Expr.lit (PyVal.str "absolute_error")]

/-- Source `scope.int(hp.qloguniform(name, np.log(9.5), np.log(3000.5), 1))`. -/
def _forest_n_estimators (name : String) : Expr :=
  Expr.scope_int (Expr.qloguniform name (PyNum.npLog (mkRat 19 2)) (PyNum.npLog (mkRat 6001 2)) (PyNum.lit 1))

/-- Source `hp.pchoice(name, [(0.7, None), (0.1, 2), (0.1, 3), (0.1, 4)])`. -/
def _forest_max_depth (name : String) : Expr :=
  Expr.pchoice name [
    (mkRat 7 10, Expr.lit PyVal.none),
    (mkRat 1 10, Expr.lit (PyVal.int 2)),
    (mkRat 1 10, Expr.lit (PyVal.int 3)),
    (mkRat 1 10, Expr.lit (PyVal.int 4))]

/-- Source `hp.pchoice(name, [(0.95, 2), (0.05, 3)])`. -/
def _forest_min_samples_split (name : String) : Expr :=
  Expr.pchoice name [
    (mkRat 19 20, Expr.lit (PyVal.int 2)),
    (mkRat 1 20, Expr.lit (PyVal.int 3))]

/-- Source `hp.choice(name, [1, scope.int(hp.qloguniform(name + ".gt1", np.log(1.5), np.log(50.5), 1))])`. -/
def _forest_min_samples_leaf (name : String) : Expr :=
  Expr.choice name [
    Expr.lit (PyVal.int 1),
    Expr.scope_int (Expr.qloguniform (name ++ ".gt1") (PyNum.npLog (mkRat 3 2)) (PyNum.npLog (mkRat 101 2)) (PyNum.lit 1))]

/-- Returns the constant `0.0`; the name argument is unused, no node is created. -/
def _forest_min_weight_fraction_leaf (_name : String) : Expr :=
  Expr.lit (PyVal.float 0)

/-- Source `hp.pchoice(name, [(0.2, "sqrt"), (0.1, "log2"), (0.1, None), (0.6, hp.uniform(name + ".frac", 0., 1.))])`. -/
def _forest_max_features (name : String) : Expr :=
  Expr.pchoice name [
    (mkRat 2 10, Expr.lit (PyVal.str "sqrt")),
    (mkRat 1 10, Expr.lit (PyVal.str "log2")),
    (mkRat 1 10, Expr.lit PyVal.none),
    (mkRat 6 10, Expr.uniform (name ++ ".frac") (PyNum.lit 0) (PyNum.lit 1))]

/-- Source `hp.pchoice(name, [(0.85, None), (0.05, 5), (0.05, 10), (0.05, 15)])`. -/
def _forest_max_leaf_nodes (name : String) : Expr :=
  Expr.pchoice name [
    (mkRat 85 100, Expr.lit PyVal.none),
    (mkRat 5 100, Expr.lit (PyVal.int 5)),
    (mkRat 5 100, Expr.lit (PyVal.int 10)),
    (mkRat 5 100, Expr.lit (PyVal.int 15))]

/-- Source `hp.pchoice(name, [(0.85, 0.0), (0.05, 0.01), (0.05, 0.02), (0.05, 0.05)])`. -/
def _forest_min_impurity_decrease (name : String) : Expr :=
  Expr.pchoice name [
    (mkRat 85 100, Expr.lit (PyVal.float 0)),
    (mkRat 5 100, Expr.lit (PyVal.float (mkRat 1 100))),
    (mkRat 5 100, Expr.lit (PyVal.float (mkRat 2 100))),
    (mkRat 5 100, Expr.lit (PyVal.float (mkRat 5 100)))]

/-- Source `hp.choice(name, [True, False])`. -/
def _forest_bootstrap (name : String) : Expr :=
  Expr.choice name [Expr.lit (PyVal.bool true), Expr.lit (PyVal.bool false)]

/-- Source `hp.randint(name, 5)`. -/
def _forest_random_state (name : String) : Expr :=
  Expr.randint name 5

/-- The keyword arguments of `_forest_hp_space`. `Option.none` models "not
explicitly passed by the caller": the validation layer only inspects keyword
arguments that were actually passed, while the composer body substitutes the
Python default for unpassed ones. -/
structure ForestKwargs where
  n_estimators : Option PyVal := Option.none
  max_depth : Option PyVal := Option.none
  min_samples_split : Option PyVal := Option.none
  min_samples_leaf : Option PyVal := Option.none
  min_weight_fraction_leaf : Option PyVal := Option.none
  max_features : Option PyVal := Option.none
  max_leaf_nodes : Option PyVal := Option.none
  min_impurity_decrease : Option PyVal := Option.none
  bootstrap : Option PyVal := Option.none
  oob_score : Option PyVal := Option.none
  n_jobs : Option PyVal := Option.none
  random_state : Option PyVal := Option.none
  verbose : Option PyVal := Option.none
  warm_start : Option PyVal := Option.none
  ccp_alpha : Option PyVal := Option.none
  max_samples : Option PyVal := Option.none

/-- The explicitly passed keyword argument for a parameter name, if any. -/
def ForestKwargs.passed (k : ForestKwargs) : String → Option PyVal
  | "n_estimators" => k.n_estimators
  | "max_depth" => k.max_depth
  | "min_samples_split" => k.min_samples_split
  | "min_samples_leaf" => k.min_samples_leaf
  | "min_weight_fraction_leaf" => k.min_weight_fraction_leaf
  | "max_features" => k.max_features
  | "max_leaf_nodes" => k.max_leaf_nodes
  | "min_impurity_decrease" => k.min_impurity_decrease
  | "bootstrap" => k.bootstrap
  | "oob_score" => k.oob_score
  | "n_jobs" => k.n_jobs
  | "random_state" => k.random_state
  | "verbose" => k.verbose
  | "warm_start" => k.warm_start
  | "ccp_alpha" => k.ccp_alpha
  | "max_samples" => k.max_samples
  | _ => Option.none

/-- The message of the `max_features` string rule, with the parameter name and the
`str` of the value interpolated for the two `%s` slots of the template
`"Invalid parameter '%s' with value '%s'. Value must be in ['auto', 'sqrt', 'log2']."`. -/
def maxFeaturesStrMsg (p v : String) : String :=
  "Invalid parameter '" ++ p ++ "' with value '" ++ v ++ "'. Value must be in ['auto', 'sqrt', 'log2']."

/-- The message of the positive-float rule, template
`"Invalid parameter '%s' with value '%s'. Parameter value must be non-negative and greater than 0."`. -/
def positiveFloatMsg (p v : String) : String :=
  "Invalid parameter '" ++ p ++ "' with value '" ++ v ++ "'. Parameter value must be non-negative and greater than 0."

/-- The message of the `ccp_alpha` rule, template
`"Invalid parameter '%s' with value '%s'. Parameter value must be non-negative."`. -/
def ccpAlphaMsg (p v : String) : String :=
  "Invalid parameter '" ++ p ++ "' with value '" ++ v ++ "'. Parameter value must be non-negative."

/-- Source `lambda param: isinstance(param, str) and param not in ["auto", "sqrt", "log2"]`. -/
def maxFeaturesStrTest : PyVal → Bool
  | .str s => !(["auto", "sqrt", "log2"].contains s)
  | _ => false

/-- Source `lambda param: isinstance(param, float) and not param > 0`. -/
def positiveFloatTest : PyVal → Bool
  | .float q => ! decide (q > 0)
  | _ => false

/-- Source `lambda param: isinstance(param, float) and not param < 0`. Note: this fires
exactly on non-negative floats, the opposite of what its message announces. -/
def ccpAlphaTest : PyVal → Bool
  | .float q => ! decide (q < 0)
  | _ => false

/-- A validation rule: target parameter names, predicate over a candidate value,
and message builder (parameter name, `str` of value). -/
structure ValidationRule where
  params : List String
  test : PyVal → Bool
  mkMsg : String → String → String

/-- Modelled from the spec: the `validate` decorator of
`hpsklearn.components._base` is not under `src/`. Per the specification, each
rule inspects the keyword arguments explicitly passed by the caller; if a listed
parameter is present and the predicate returns true for its value, construction
fails immediately with the formatted message naming the parameter and its value,
before any distribution is generated. -/
def ruleError (k : ForestKwargs) (r : ValidationRule) : Option String :=
  r.params.findSome? fun p =>
    match k.passed p with
    | some v => if r.test v then some (r.mkMsg p v.pyStr) else Option.none
    | Option.none => Option.none

/-- The seven parameter names listed in the positive-float `validate` decorator. -/
def floatRuleParams : List String :=
  ["n_estimators", "max_depth", "min_samples_split", "min_samples_leaf",
   "max_features", "max_leaf_nodes", "min_impurity_decrease"]

/-- The three stacked `validate` decorators on `_forest_hp_space`, outermost
first: the `max_features` string rule, the positive-float rule over seven
parameters, and the `ccp_alpha` rule. -/
def forestValidationRules : List ValidationRule :=
  [⟨["max_features"], maxFeaturesStrTest, maxFeaturesStrMsg⟩,
   ⟨floatRuleParams, positiveFloatTest, positiveFloatMsg⟩,
   ⟨["ccp_alpha"], ccpAlphaTest, ccpAlphaMsg⟩]

/-- Modelled from the spec: stacked validators run in order and the first failing
rule's message is raised. -/
def forestValidationError (k : ForestKwargs) : Option String :=
  forestValidationRules.findSome? (ruleError k)

/-- The `ValueError` message of the bootstrap guard in `_forest_hp_space`. -/
def bootstrapGuardMsg : String :=
  "Invalid declaration of parameters. \nFor usage of custom parameters 'oob_score' and 'max_samples' parameter 'bootstrap' can not be False."

/-- Python `value or generated`: the `or`-defaulting used by several parameters,
keeping the caller's value only when it is truthy. -/
def orElseGen (v : PyVal) (gen : Expr) : Expr :=
  if v.truthy then Expr.lit v else gen

/-- The `dict(...)` literal of `_forest_hp_space`, in insertion order. Each
keyword argument is first resolved against its Python default (`getD`), exactly
as Python binds parameters at function entry; `or`-defaulted parameters keep the
caller's value only when truthy, while `max_depth`, `max_leaf_nodes`,
`bootstrap` and `random_state` use an `is None` test. -/
def forestDict (name_func : String → String) (k : ForestKwargs) : List (String × Expr) :=
  [("n_estimators", orElseGen (k.n_estimators.getD PyVal.none) (_forest_n_estimators (name_func "n_estimators"))),
   ("max_depth", if (k.max_depth.getD PyVal.none).isNoneV then _forest_max_depth (name_func "max_depth") else Expr.lit (k.max_depth.getD PyVal.none)),
   ("min_samples_split", orElseGen (k.min_samples_split.getD PyVal.none) (_forest_min_samples_split (name_func "min_samples_split"))),
   ("min_samples_leaf", orElseGen (k.min_samples_leaf.getD PyVal.none) (_forest_min_samples_leaf (name_func "min_samples_leaf"))),
   ("min_weight_fraction_leaf", orElseGen (k.min_weight_fraction_leaf.getD PyVal.none) (_forest_min_weight_fraction_leaf (name_func "min_weight_fraction_leaf"))),
   ("max_features", orElseGen (k.max_features.getD PyVal.none) (_forest_max_features (name_func "max_features"))),
   ("max_leaf_nodes", if (k.max_leaf_nodes.getD PyVal.none).isNoneV then _forest_max_leaf_nodes (name_func "max_leaf_nodes") else Expr.lit (k.max_leaf_nodes.getD PyVal.none)),
   ("min_impurity_decrease", orElseGen (k.min_impurity_decrease.getD PyVal.none) (_forest_min_impurity_decrease (name_func "min_impurity_decrease"))),
   ("bootstrap", if (k.bootstrap.getD PyVal.none).isNoneV then _forest_bootstrap (name_func "bootstrap") else Expr.lit (k.bootstrap.getD PyVal.none)),
   ("oob_score", Expr.lit (k.oob_score.getD (PyVal.bool false))),
   ("n_jobs", Expr.lit (k.n_jobs.getD (PyVal.int 1))),
   ("random_state", if (k.random_state.getD PyVal.none).isNoneV then _forest_random_state (name_func "random_state") else Expr.lit (k.random_state.getD PyVal.none)),
   ("verbose", Expr.lit (k.verbose.getD (PyVal.bool false))),
   ("warm_start", Expr.lit (k.warm_start.getD (PyVal.bool false))),
   ("ccp_alpha", Expr.lit (k.ccp_alpha.getD (PyVal.float 0))),
   ("max_samples", Expr.lit (k.max_samples.getD PyVal.none))]

/-- The body of `_forest_hp_space` (inside the validation decorators): the
bootstrap guard followed by the `dict(...)` literal. The guard condition is
`bootstrap is False and any([oob_score, max_samples]) is not None`; since `any`
returns a bool, the second conjunct is always true. -/
def _forest_hp_space_body (name_func : String → String) (k : ForestKwargs) :
    Except String (List (String × Expr)) :=
  if (k.bootstrap.getD PyVal.none).isFalseV &&
      !(pyAny [k.oob_score.getD (PyVal.bool false), k.max_samples.getD PyVal.none]).isNoneV then
    Except.error bootstrapGuardMsg
  else
    Except.ok (forestDict name_func k)

/-- Source `_forest_hp_space` as callable from outside: the stacked validation layer,
then the guarded dict construction. -/
def _forest_hp_space (name_func : String → String) (k : ForestKwargs) :
    Except String (List (String × Expr)) :=
  match forestValidationError k with
  | some msg => Except.error msg
  | Option.none => _forest_hp_space_body name_func k

/-- The four wrapped estimator constructors. -/
inductive SkEstimator where
  | RandomForestClassifier
  | RandomForestRegressor
  | ExtraTreesClassifier
  | ExtraTreesRegressor
deriving DecidableEq

/-- A deferred construction node `scope.sklearn_<SkEstimator>(**hp_space)`. -/
structure SkNode where
  est : SkEstimator
  space : List (String × Expr)

/-- Source `random_forest_classifier`: family tag `rfc_`, classifier criterion,
wrapped in `scope.sklearn_RandomForestClassifier`. -/
def random_forest_classifier (name : String) (criterion : Option PyVal)
    (kwargs : ForestKwargs) : Except String SkNode :=
  match _forest_hp_space (fun msg => name ++ ".rfc_" ++ msg) kwargs with
  | Except.error e => Except.error e
  | Except.ok sp =>
      Except.ok ⟨SkEstimator.RandomForestClassifier,
        sp ++ [("criterion", orElseGen (criterion.getD PyVal.none) (_forest_classifier_criterion (name ++ ".rfc_" ++ "criterion")))]⟩

/-- Source `random_forest_regressor`: family tag `rfr_`, regressor criterion,
wrapped in `scope.sklearn_RandomForestRegressor`. -/
def random_forest_regressor (name : String) (criterion : Option PyVal)
    (kwargs : ForestKwargs) : Except String SkNode :=
  match _forest_hp_space (fun msg => name ++ ".rfr_" ++ msg) kwargs with
  | Except.error e => Except.error e
  | Except.ok sp =>
      Except.ok ⟨SkEstimator.RandomForestRegressor,
        sp ++ [("criterion", orElseGen (criterion.getD PyVal.none) (_random_forest_regressor_criterion (name ++ ".rfr_" ++ "criterion")))]⟩

/-- Source `extra_trees_classifier`: family tag `etc_`, classifier criterion,
wrapped in `scope.sklearn_ExtraTreesClassifier`. -/
def extra_trees_classifier (name : String) (criterion : Option PyVal)
    (kwargs : ForestKwargs) : Except String SkNode :=
  match _forest_hp_space (fun msg => name ++ ".etc_" ++ msg) kwargs with
  | Except.error e => Except.error e
  | Except.ok sp =>
      Except.ok ⟨SkEstimator.ExtraTreesClassifier,
        sp ++ [("criterion", orElseGen (criterion.getD PyVal.none) (_forest_classifier_criterion (name ++ ".etc_" ++ "criterion")))]⟩

/-- Source `extra_trees_regressor`: family tag `etr_`, regressor criterion,
wrapped in `scope.sklearn_ExtraTreesRegressor`. -/
def extra_trees_regressor (name : String) (criterion : Option PyVal)
    (kwargs : ForestKwargs) : Except String SkNode :=
  match _forest_hp_space (fun msg => name ++ ".etr_" ++ msg) kwargs with
  | Except.error e => Except.error e
  | Except.ok sp =>
      Except.ok ⟨SkEstimator.ExtraTreesRegressor,
        sp ++ [("criterion", orElseGen (criterion.getD PyVal.none) (_extra_trees_regressor_criterion (name ++ ".etr_" ++ "criterion")))]⟩

/-- Whether a construction call raised. -/
def isErr {α : Type} : Except String α → Bool
  | Except.error _ => true
  | Except.ok _ => false

/-- Look up a parameter in a composed space wrapped in `Except`: `Option.none`
when the call raised or the key is absent. -/
def spaceLookup (r : Except String (List (String × Expr))) (key : String) : Option Expr :=
  match r with
  | Except.ok sp => sp.lookup key
  | Except.error _ => Option.none

/-- The sixteen keys of the `dict(...)` literal in `_forest_hp_space`, in
insertion order. -/
def forestParamKeys : List String :=
  ["n_estimators", "max_depth", "min_samples_split", "min_samples_leaf",
   "min_weight_fraction_leaf", "max_features", "max_leaf_nodes", "min_impurity_decrease",
   "bootstrap", "oob_score", "n_jobs", "random_state", "verbose", "warm_start",
   "ccp_alpha", "max_samples"]

/-- The full key set of a family entry point's mapping: the sixteen composer
keys plus `criterion`, appended last. -/
def forestSpaceKeys : List String :=
  forestParamKeys ++ ["criterion"]

/-- The key list of an entry point's result, when it succeeded. -/
def builderKeys (r : Except String SkNode) : Except String (List String) :=
  r.map fun node => node.space.map Prod.fst

/-- All leaf node names of a composed space, in order. -/
def spaceLeafNames : List (String × Expr) → List String
  | [] => []
  | p :: ps => p.2.leafNames ++ spaceLeafNames ps

/-- The leaf node names of an entry point's result (empty when the call raised). -/
def builderLeafNames (r : Except String SkNode) : List String :=
  match r with
  | Except.ok node => spaceLeafNames node.space
  | Except.error _ => []

/-- The leaf-name suffixes a default entry-point call generates, in mapping
order, including the derived `.gt1` and `.frac` sub-names. -/
def forestLeafSuffixes : List String :=
  ["n_estimators", "max_depth", "min_samples_split", "min_samples_leaf",
   "min_samples_leaf.gt1", "max_features", "max_features.frac", "max_leaf_nodes",
   "min_impurity_decrease", "bootstrap", "random_state", "criterion"]

/-- The leaf names of a default entry-point call as a function of the base name
and the family tag alone. -/
def familyLeafNames (name tag : String) : List String :=
  forestLeafSuffixes.map fun s => name ++ tag ++ s

/-- Look up a parameter in an entry point's result: `Option.none` when the call
raised or the key is absent. -/
def builderLookup (r : Except String SkNode) (key : String) : Option Expr :=
  match r with
  | Except.ok node => node.space.lookup key
  | Except.error _ => Option.none

/-- The kwargs of a call that passes exactly one parameter explicitly. -/
def singleKwarg (p : String) (v : Option PyVal) : ForestKwargs :=
  match p with
  | "n_estimators" => { n_estimators := v }
  | "max_depth" => { max_depth := v }
  | "min_samples_split" => { min_samples_split := v }
  | "min_samples_leaf" => { min_samples_leaf := v }
  | "min_weight_fraction_leaf" => { min_weight_fraction_leaf := v }
  | "max_features" => { max_features := v }
  | "max_leaf_nodes" => { max_leaf_nodes := v }
  | "min_impurity_decrease" => { min_impurity_decrease := v }
  | "bootstrap" => { bootstrap := v }
  | "oob_score" => { oob_score := v }
  | "n_jobs" => { n_jobs := v }
  | "random_state" => { random_state := v }
  | "verbose" => { verbose := v }
  | "warm_start" => { warm_start := v }
  | "ccp_alpha" => { ccp_alpha := v }
  | "max_samples" => { max_samples := v }
  | _ => {}

/-- Strings append left-cancellation, via the underlying character lists. -/
theorem append_left_cancel_str (a b c : String) (h : a ++ b = a ++ c) : b = c := by
  have hd := congrArg String.data h
  simp [String.data_append] at hd
  exact String.ext hd

/-- A successful `_forest_hp_space` call returns exactly the composed dict. -/
theorem hp_space_ok_dict (f : String → String) (k : ForestKwargs)
    (sp : List (String × Expr)) (h : _forest_hp_space f k = Except.ok sp) :
    sp = forestDict f k := by
  unfold _forest_hp_space at h
  cases hv : forestValidationError k with
  | some m => rw [hv] at h; exact Except.noConfusion h
  | none =>
      rw [hv] at h
      unfold _forest_hp_space_body at h
      by_cases hb : ((k.bootstrap.getD PyVal.none).isFalseV &&
          !(pyAny [k.oob_score.getD (PyVal.bool false), k.max_samples.getD PyVal.none]).isNoneV) = true
      · rw [if_pos hb] at h; exact Except.noConfusion h
      · rw [if_neg hb] at h; exact (Except.ok.inj h).symm

/-- The generated leaf names, grouped as base-plus-tag applied to each suffix. -/
theorem familyLeafNames_shape (name tag : String) :
    ([name ++ tag ++ "n_estimators", name ++ tag ++ "max_depth", name ++ tag ++ "min_samples_split",
      name ++ tag ++ "min_samples_leaf", (name ++ tag ++ "min_samples_leaf") ++ ".gt1",
      name ++ tag ++ "max_features", (name ++ tag ++ "max_features") ++ ".frac",
      name ++ tag ++ "max_leaf_nodes", name ++ tag ++ "min_impurity_decrease",
      name ++ tag ++ "bootstrap", name ++ tag ++ "random_state", name ++ tag ++ "criterion"])
    = familyLeafNames name tag := by
  unfold familyLeafNames forestLeafSuffixes
  simp only [List.map]
  rw [String.append_assoc (name ++ tag) "min_samples_leaf" ".gt1",
      String.append_assoc (name ++ tag) "max_features" ".frac"]
  rfl

/-- A default `random_forest_classifier` call generates exactly the tagged names. -/
theorem rfc_default_leafNames (name : String) :
    builderLeafNames (random_forest_classifier name Option.none {}) = familyLeafNames name ".rfc_" := by
  rw [← familyLeafNames_shape name ".rfc_"]
  rfl

/-- A default `random_forest_regressor` call generates exactly the tagged names. -/
theorem rfr_default_leafNames (name : String) :
    builderLeafNames (random_forest_regressor name Option.none {}) = familyLeafNames name ".rfr_" := by
  rw [← familyLeafNames_shape name ".rfr_"]
  rfl

/-- A default `extra_trees_classifier` call generates exactly the tagged names. -/
theorem etc_default_leafNames (name : String) :
    builderLeafNames (extra_trees_classifier name Option.none {}) = familyLeafNames name ".etc_" := by
  rw [← familyLeafNames_shape name ".etc_"]
  rfl

/-- A default `extra_trees_regressor` call generates exactly the tagged names. -/
theorem etr_default_leafNames (name : String) :
    builderLeafNames (extra_trees_regressor name Option.none {}) = familyLeafNames name ".etr_" := by
  rw [← familyLeafNames_shape name ".etr_"]
  rfl

/-- The generated leaf names of one call are pairwise distinct, since the tagged
prefix is shared and the suffixes differ. -/
theorem familyLeafNames_nodup (name tag : String) : (familyLeafNames name tag).Nodup := by
  unfold familyLeafNames
  refine List.Nodup.map ?_ (by decide)
  intro s t h
  exact append_left_cancel_str (name ++ tag) s t h

/-- A classifier entry point raises exactly when its composer call raises. -/
theorem isErr_rfc_eq (name : String) (c : Option PyVal) (k : ForestKwargs) :
    isErr (random_forest_classifier name c k)
      = isErr (_forest_hp_space (fun msg => name ++ ".rfc_" ++ msg) k) := by
  unfold random_forest_classifier
  cases _forest_hp_space (fun msg => name ++ ".rfc_" ++ msg) k <;> rfl

/-- When the bootstrap guard does not fire, `_forest_hp_space` raises exactly
when the validation layer reports an error. -/
theorem isErr_hp_space_validation (f : String → String) (k : ForestKwargs)
    (hg : ((k.bootstrap.getD PyVal.none).isFalseV &&
      !(pyAny [k.oob_score.getD (PyVal.bool false), k.max_samples.getD PyVal.none]).isNoneV) = false) :
    isErr (_forest_hp_space f k) = (forestValidationError k).isSome := by
  unfold _forest_hp_space
  cases forestValidationError k with
  | some m => rfl
  | none =>
      unfold _forest_hp_space_body
      simp only [hg]
      rfl

/-- The random forest regressor entry point raises exactly when its composer
call raises. -/
theorem isErr_rfr_eq (name : String) (c : Option PyVal) (k : ForestKwargs) :
    isErr (random_forest_regressor name c k)
      = isErr (_forest_hp_space (fun msg => name ++ ".rfr_" ++ msg) k) := by
  unfold random_forest_regressor
  cases _forest_hp_space (fun msg => name ++ ".rfr_" ++ msg) k <;> rfl

/-- The extra trees classifier entry point raises exactly when its composer
call raises. -/
theorem isErr_etc_eq (name : String) (c : Option PyVal) (k : ForestKwargs) :
    isErr (extra_trees_classifier name c k)
      = isErr (_forest_hp_space (fun msg => name ++ ".etc_" ++ msg) k) := by
  unfold extra_trees_classifier
  cases _forest_hp_space (fun msg => name ++ ".etc_" ++ msg) k <;> rfl

/-- The extra trees regressor entry point raises exactly when its composer
call raises. -/
theorem isErr_etr_eq (name : String) (c : Option PyVal) (k : ForestKwargs) :
    isErr (extra_trees_regressor name c k)
      = isErr (_forest_hp_space (fun msg => name ++ ".etr_" ++ msg) k) := by
  unfold extra_trees_regressor
  cases _forest_hp_space (fun msg => name ++ ".etr_" ++ msg) k <;> rfl

/-- A validation failure makes the classifier entry point raise that message. -/
theorem rfc_err_of_validation (name : String) (c : Option PyVal) (k : ForestKwargs)
    (m : String) (hv : forestValidationError k = some m) :
    random_forest_classifier name c k = Except.error m := by
  unfold random_forest_classifier _forest_hp_space
  rw [hv]

/-- A validation failure makes the random forest regressor entry point raise
that message. -/
theorem rfr_err_of_validation (name : String) (c : Option PyVal) (k : ForestKwargs)
    (m : String) (hv : forestValidationError k = some m) :
    random_forest_regressor name c k = Except.error m := by
  unfold random_forest_regressor _forest_hp_space
  rw [hv]

/-- A validation failure makes the extra trees classifier entry point raise
that message. -/
theorem etc_err_of_validation (name : String) (c : Option PyVal) (k : ForestKwargs)
    (m : String) (hv : forestValidationError k = some m) :
    extra_trees_classifier name c k = Except.error m := by
  unfold extra_trees_classifier _forest_hp_space
  rw [hv]

/-- A validation failure makes the extra trees regressor entry point raise
that message. -/
theorem etr_err_of_validation (name : String) (c : Option PyVal) (k : ForestKwargs)
    (m : String) (hv : forestValidationError k = some m) :
    extra_trees_regressor name c k = Except.error m := by
  unfold extra_trees_regressor _forest_hp_space
  rw [hv]

/-- The validation outcome of passing only `max_features` as a string. -/
theorem validation_max_features_str (s : String) :
    forestValidationError { max_features := some (PyVal.str s) } =
      if s ∈ (["auto", "sqrt", "log2"] : List String) then Option.none
      else some (maxFeaturesStrMsg "max_features" s) := by
  by_cases hs : s ∈ (["auto", "sqrt", "log2"] : List String)
  · rw [if_pos hs]
    simp only [List.mem_cons, List.mem_singleton, List.not_mem_nil, or_false] at hs
    rcases hs with rfl | rfl | rfl <;> rfl
  · rw [if_neg hs]
    have h3 : ¬s = "auto" ∧ ¬s = "sqrt" ∧ ¬s = "log2" := by
      simp only [List.mem_cons, List.mem_singleton, List.not_mem_nil, or_false, not_or] at hs
      exact hs
    simp [forestValidationError, forestValidationRules, ruleError, ForestKwargs.passed,
          maxFeaturesStrTest, List.findSome?, h3, PyVal.pyStr]

/-- The validation outcome of passing only one float-rule parameter as a float. -/
theorem validation_float_param (p : String) (hp : p ∈ floatRuleParams) (q : ℚ) :
    forestValidationError (singleKwarg p (some (PyVal.float q))) =
      if 0 < q then Option.none else some (positiveFloatMsg p (PyVal.float q).pyStr) := by
  by_cases hq : 0 < q
  · have hd : decide (q > 0) = true := decide_eq_true hq
    rw [if_pos hq]
    fin_cases hp <;>
      simp [forestValidationError, forestValidationRules, ruleError, ForestKwargs.passed,
            singleKwarg, floatRuleParams, maxFeaturesStrTest, positiveFloatTest, ccpAlphaTest,
            List.findSome?, hd, hq]
  · have hd : decide (q > 0) = false := decide_eq_false hq
    rw [if_neg hq]
    fin_cases hp <;>
      simp [forestValidationError, forestValidationRules, ruleError, ForestKwargs.passed,
            singleKwarg, floatRuleParams, maxFeaturesStrTest, positiveFloatTest, ccpAlphaTest,
            List.findSome?, hd, hq]

/-- C1: evaluation of the `ccp_alpha` rule on the source code. The rule's test
`isinstance(param, float) and not param < 0` fires exactly on non-negative
floats, so an explicit `ccp_alpha=0.0` raises the "must be non-negative" error
while `ccp_alpha=-0.1` passes validation and the call succeeds — the opposite
of the claimed behaviour. A call that leaves `ccp_alpha` at its default is not
inspected and succeeds. -/
theorem claim_C1_ccp_alpha_inverted :
    random_forest_classifier "rf" Option.none { ccp_alpha := some (PyVal.float 0) }
      = Except.error (ccpAlphaMsg "ccp_alpha" (PyVal.float 0).pyStr)
  ∧ isErr (random_forest_classifier "rf" Option.none { ccp_alpha := some (PyVal.float (mkRat (-1) 10)) }) = false
  ∧ isErr (random_forest_classifier "rf" Option.none {}) = false :=
  ⟨rfl, rfl, rfl⟩

/-- C2: evaluation of the bootstrap guard on the source code. Since
`any([oob_score, max_samples]) is not None` is always true (`any` returns a
bool), every call with `bootstrap=False` raises the guard error, even with
`oob_score` and `max_samples` left at their false-like defaults — contradicting
the claimed "raises if and only if oob_score or max_samples is truthy".
`bootstrap=True` with `oob_score=True` succeeds as claimed. -/
theorem claim_C2_bootstrap_guard :
    random_forest_classifier "rf" Option.none { bootstrap := some (PyVal.bool false) }
      = Except.error bootstrapGuardMsg
  ∧ isErr (random_forest_classifier "rf" Option.none
      { bootstrap := some (PyVal.bool false), oob_score := some (PyVal.bool true) }) = true
  ∧ isErr (random_forest_classifier "rf" Option.none
      { bootstrap := some (PyVal.bool true), oob_score := some (PyVal.bool true) }) = false :=
  ⟨rfl, rfl, rfl⟩

/-- C3: for `max_depth` and `max_leaf_nodes` (and for `bootstrap` whenever the
call succeeds), the composed mapping holds the generated default distribution
exactly when the override is `None`, and any non-`None` override (including 0)
passes through unmodified; but a `bootstrap=False` override makes the call
raise the guard error instead of appearing in a returned mapping. -/
theorem claim_C3_none_dispatch :
    (∀ (f : String → String) (v : PyVal) (sp : List (String × Expr)),
        _forest_hp_space f { max_depth := some v } = Except.ok sp →
          sp.lookup "max_depth"
            = some (if v.isNoneV then _forest_max_depth (f "max_depth") else Expr.lit v))
  ∧ (∀ (f : String → String) (v : PyVal) (sp : List (String × Expr)),
        _forest_hp_space f { max_leaf_nodes := some v } = Except.ok sp →
          sp.lookup "max_leaf_nodes"
            = some (if v.isNoneV then _forest_max_leaf_nodes (f "max_leaf_nodes") else Expr.lit v))
  ∧ (∀ (f : String → String) (v : PyVal) (sp : List (String × Expr)),
        _forest_hp_space f { bootstrap := some v } = Except.ok sp →
          sp.lookup "bootstrap"
            = some (if v.isNoneV then _forest_bootstrap (f "bootstrap") else Expr.lit v))
  ∧ (∀ f : String → String,
        _forest_hp_space f { bootstrap := some (PyVal.bool false) }
          = Except.error bootstrapGuardMsg) := by
  refine ⟨?_, ?_, ?_, fun f => rfl⟩ <;>
  · intro f v sp h
    rw [hp_space_ok_dict _ _ _ h]
    rfl

/-- C3 witness: concrete instances with overrides 0, 0 and True. -/
theorem claim_C3_none_dispatch_witness :
    (forestDict id { max_depth := some (PyVal.int 0) }).lookup "max_depth"
      = some (Expr.lit (PyVal.int 0))
  ∧ (forestDict id { max_leaf_nodes := some (PyVal.int 0) }).lookup "max_leaf_nodes"
      = some (Expr.lit (PyVal.int 0))
  ∧ (forestDict id { bootstrap := some (PyVal.bool true) }).lookup "bootstrap"
      = some (Expr.lit (PyVal.bool true)) :=
  ⟨claim_C3_none_dispatch.1 id (PyVal.int 0) _ rfl,
   claim_C3_none_dispatch.2.1 id (PyVal.int 0) _ rfl,
   claim_C3_none_dispatch.2.2.1 id (PyVal.bool true) _ rfl⟩

/-- C4 counterexample: an explicit falsy override `min_samples_split=0.0` does
not make the builder call succeed with the generated default; the float
validation rule raises instead. -/
theorem claim_C4_or_default_counterexample :
    random_forest_classifier "rf" Option.none { min_samples_split := some (PyVal.float 0) }
      = Except.error (positiveFloatMsg "min_samples_split" (PyVal.float 0).pyStr) :=
  rfl

/-- C4 (amended): for `min_samples_split`, `min_samples_leaf`, `max_features`
and `min_impurity_decrease`, a falsy override that passes validation — `0`,
`False`, and the empty string except for `max_features` — is silently replaced
by the generated default distribution; but a falsy override of `0.0` raises the
positive-float validation error for all four parameters, and the empty string
raises the string validation error for `max_features`. -/
theorem claim_C4_or_default_amended : ∀ name : String,
    (builderLookup (random_forest_classifier name Option.none
        { min_samples_split := some (PyVal.int 0) }) "min_samples_split"
      = some (_forest_min_samples_split (name ++ ".rfc_" ++ "min_samples_split")))
  ∧ (builderLookup (random_forest_classifier name Option.none
        { min_samples_split := some (PyVal.bool false) }) "min_samples_split"
      = some (_forest_min_samples_split (name ++ ".rfc_" ++ "min_samples_split")))
  ∧ (builderLookup (random_forest_classifier name Option.none
        { min_samples_split := some (PyVal.str "") }) "min_samples_split"
      = some (_forest_min_samples_split (name ++ ".rfc_" ++ "min_samples_split")))
  ∧ (builderLookup (random_forest_classifier name Option.none
        { min_samples_leaf := some (PyVal.int 0) }) "min_samples_leaf"
      = some (_forest_min_samples_leaf (name ++ ".rfc_" ++ "min_samples_leaf")))
  ∧ (builderLookup (random_forest_classifier name Option.none
        { min_samples_leaf := some (PyVal.bool false) }) "min_samples_leaf"
      = some (_forest_min_samples_leaf (name ++ ".rfc_" ++ "min_samples_leaf")))
  ∧ (builderLookup (random_forest_classifier name Option.none
        { min_samples_leaf := some (PyVal.str "") }) "min_samples_leaf"
      = some (_forest_min_samples_leaf (name ++ ".rfc_" ++ "min_samples_leaf")))
  ∧ (builderLookup (random_forest_classifier name Option.none
        { max_features := some (PyVal.int 0) }) "max_features"
      = some (_forest_max_features (name ++ ".rfc_" ++ "max_features")))
  ∧ (builderLookup (random_forest_classifier name Option.none
        { max_features := some (PyVal.bool false) }) "max_features"
      = some (_forest_max_features (name ++ ".rfc_" ++ "max_features")))
  ∧ (builderLookup (random_forest_classifier name Option.none
        { min_impurity_decrease := some (PyVal.int 0) }) "min_impurity_decrease"
      = some (_forest_min_impurity_decrease (name ++ ".rfc_" ++ "min_impurity_decrease")))
  ∧ (builderLookup (random_forest_classifier name Option.none
        { min_impurity_decrease := some (PyVal.bool false) }) "min_impurity_decrease"
      = some (_forest_min_impurity_decrease (name ++ ".rfc_" ++ "min_impurity_decrease")))
  ∧ (builderLookup (random_forest_classifier name Option.none
        { min_impurity_decrease := some (PyVal.str "") }) "min_impurity_decrease"
      = some (_forest_min_impurity_decrease (name ++ ".rfc_" ++ "min_impurity_decrease")))
  ∧ (random_forest_classifier name Option.none { min_samples_split := some (PyVal.float 0) }
      = Except.error (positiveFloatMsg "min_samples_split" (PyVal.float 0).pyStr))
  ∧ (random_forest_classifier name Option.none { min_samples_leaf := some (PyVal.float 0) }
      = Except.error (positiveFloatMsg "min_samples_leaf" (PyVal.float 0).pyStr))
  ∧ (random_forest_classifier name Option.none { max_features := some (PyVal.float 0) }
      = Except.error (positiveFloatMsg "max_features" (PyVal.float 0).pyStr))
  ∧ (random_forest_classifier name Option.none { min_impurity_decrease := some (PyVal.float 0) }
      = Except.error (positiveFloatMsg "min_impurity_decrease" (PyVal.float 0).pyStr))
  ∧ (random_forest_classifier name Option.none { max_features := some (PyVal.str "") }
      = Except.error (maxFeaturesStrMsg "max_features" "")) :=
  fun _ => ⟨rfl, rfl, rfl, rfl, rfl, rfl, rfl, rfl, rfl, rfl, rfl, rfl, rfl, rfl, rfl, rfl⟩

/-- C5: for every family entry point, a call with `max_features` given as a
string raises exactly when the string is not one of "auto", "sqrt", "log2",
and the raised message names the parameter and the offending value. -/
theorem claim_C5_max_features_str : ∀ (name s : String),
    ((isErr (random_forest_classifier name Option.none
          { max_features := some (PyVal.str s) }) = true
        ↔ s ∉ (["auto", "sqrt", "log2"] : List String))
      ∧ (isErr (random_forest_regressor name Option.none
          { max_features := some (PyVal.str s) }) = true
        ↔ s ∉ (["auto", "sqrt", "log2"] : List String))
      ∧ (isErr (extra_trees_classifier name Option.none
          { max_features := some (PyVal.str s) }) = true
        ↔ s ∉ (["auto", "sqrt", "log2"] : List String))
      ∧ (isErr (extra_trees_regressor name Option.none
          { max_features := some (PyVal.str s) }) = true
        ↔ s ∉ (["auto", "sqrt", "log2"] : List String)))
  ∧ (s ∉ (["auto", "sqrt", "log2"] : List String) →
      (random_forest_classifier name Option.none { max_features := some (PyVal.str s) }
        = Except.error (maxFeaturesStrMsg "max_features" s))
      ∧ (random_forest_regressor name Option.none { max_features := some (PyVal.str s) }
        = Except.error (maxFeaturesStrMsg "max_features" s))
      ∧ (extra_trees_classifier name Option.none { max_features := some (PyVal.str s) }
        = Except.error (maxFeaturesStrMsg "max_features" s))
      ∧ (extra_trees_regressor name Option.none { max_features := some (PyVal.str s) }
        = Except.error (maxFeaturesStrMsg "max_features" s))) := by
  intro name s
  have hv := validation_max_features_str s
  by_cases hs : s ∈ (["auto", "sqrt", "log2"] : List String)
  · rw [if_pos hs] at hv
    refine ⟨⟨?_, ?_, ?_, ?_⟩, fun hns => absurd hs hns⟩
    · rw [isErr_rfc_eq,
          isErr_hp_space_validation _ { max_features := some (PyVal.str s) } rfl, hv]
      simp [hs]
    · rw [isErr_rfr_eq,
          isErr_hp_space_validation _ { max_features := some (PyVal.str s) } rfl, hv]
      simp [hs]
    · rw [isErr_etc_eq,
          isErr_hp_space_validation _ { max_features := some (PyVal.str s) } rfl, hv]
      simp [hs]
    · rw [isErr_etr_eq,
          isErr_hp_space_validation _ { max_features := some (PyVal.str s) } rfl, hv]
      simp [hs]
  · rw [if_neg hs] at hv
    refine ⟨⟨?_, ?_, ?_, ?_⟩, fun _ =>
      ⟨rfc_err_of_validation name Option.none _ _ hv,
       rfr_err_of_validation name Option.none _ _ hv,
       etc_err_of_validation name Option.none _ _ hv,
       etr_err_of_validation name Option.none _ _ hv⟩⟩
    · rw [isErr_rfc_eq,
          isErr_hp_space_validation _ { max_features := some (PyVal.str s) } rfl, hv]
      simp [hs]
    · rw [isErr_rfr_eq,
          isErr_hp_space_validation _ { max_features := some (PyVal.str s) } rfl, hv]
      simp [hs]
    · rw [isErr_etc_eq,
          isErr_hp_space_validation _ { max_features := some (PyVal.str s) } rfl, hv]
      simp [hs]
    · rw [isErr_etr_eq,
          isErr_hp_space_validation _ { max_features := some (PyVal.str s) } rfl, hv]
      simp [hs]

/-- C5 witness: `max_features="invalid"` raises the formatted message at all
four family entry points. -/
theorem claim_C5_max_features_str_witness :
    ("invalid" ∉ (["auto", "sqrt", "log2"] : List String))
  ∧ random_forest_classifier "rf" Option.none { max_features := some (PyVal.str "invalid") }
      = Except.error (maxFeaturesStrMsg "max_features" "invalid")
  ∧ random_forest_regressor "rf" Option.none { max_features := some (PyVal.str "invalid") }
      = Except.error (maxFeaturesStrMsg "max_features" "invalid")
  ∧ extra_trees_classifier "rf" Option.none { max_features := some (PyVal.str "invalid") }
      = Except.error (maxFeaturesStrMsg "max_features" "invalid")
  ∧ extra_trees_regressor "rf" Option.none { max_features := some (PyVal.str "invalid") }
      = Except.error (maxFeaturesStrMsg "max_features" "invalid") :=
  ⟨by decide,
   ((claim_C5_max_features_str "rf" "invalid").2 (by decide)).1,
   ((claim_C5_max_features_str "rf" "invalid").2 (by decide)).2.1,
   ((claim_C5_max_features_str "rf" "invalid").2 (by decide)).2.2.1,
   ((claim_C5_max_features_str "rf" "invalid").2 (by decide)).2.2.2⟩

/-- C6: for every family entry point, each of the seven float-rule parameters,
explicitly supplied as a float, makes the call raise exactly when the value is
not strictly positive; int overrides (any integer, in particular 100) and
`None` overrides never trigger the rule. -/
theorem claim_C6_positive_float_rule : ∀ (name p : String), p ∈ floatRuleParams →
    ((∀ q : ℚ, isErr (random_forest_classifier name Option.none
        (singleKwarg p (some (PyVal.float q)))) = true ↔ ¬0 < q)
      ∧ (∀ n : Int, isErr (random_forest_classifier name Option.none
          (singleKwarg p (some (PyVal.int n)))) = false)
      ∧ isErr (random_forest_classifier name Option.none (singleKwarg p (some PyVal.none))) = false)
  ∧ ((∀ q : ℚ, isErr (random_forest_regressor name Option.none
        (singleKwarg p (some (PyVal.float q)))) = true ↔ ¬0 < q)
      ∧ (∀ n : Int, isErr (random_forest_regressor name Option.none
          (singleKwarg p (some (PyVal.int n)))) = false)
      ∧ isErr (random_forest_regressor name Option.none (singleKwarg p (some PyVal.none))) = false)
  ∧ ((∀ q : ℚ, isErr (extra_trees_classifier name Option.none
        (singleKwarg p (some (PyVal.float q)))) = true ↔ ¬0 < q)
      ∧ (∀ n : Int, isErr (extra_trees_classifier name Option.none
          (singleKwarg p (some (PyVal.int n)))) = false)
      ∧ isErr (extra_trees_classifier name Option.none (singleKwarg p (some PyVal.none))) = false)
  ∧ ((∀ q : ℚ, isErr (extra_trees_regressor name Option.none
        (singleKwarg p (some (PyVal.float q)))) = true ↔ ¬0 < q)
      ∧ (∀ n : Int, isErr (extra_trees_regressor name Option.none
          (singleKwarg p (some (PyVal.int n)))) = false)
      ∧ isErr (extra_trees_regressor name Option.none (singleKwarg p (some PyVal.none))) = false) := by
  intro name p hp
  refine ⟨⟨fun q => ?_, fun n => ?_, ?_⟩, ⟨fun q => ?_, fun n => ?_, ?_⟩,
          ⟨fun q => ?_, fun n => ?_, ?_⟩, ⟨fun q => ?_, fun n => ?_, ?_⟩⟩
  · rw [isErr_rfc_eq, isErr_hp_space_validation, validation_float_param p hp q]
    · by_cases hq : 0 < q <;> simp [hq]
    · fin_cases hp <;> rfl
  · rw [isErr_rfc_eq, isErr_hp_space_validation]
    · fin_cases hp <;> rfl
    · fin_cases hp <;> rfl
  · rw [isErr_rfc_eq, isErr_hp_space_validation]
    · fin_cases hp <;> rfl
    · fin_cases hp <;> rfl
  · rw [isErr_rfr_eq, isErr_hp_space_validation, validation_float_param p hp q]
    · by_cases hq : 0 < q <;> simp [hq]
    · fin_cases hp <;> rfl
  · rw [isErr_rfr_eq, isErr_hp_space_validation]
    · fin_cases hp <;> rfl
    · fin_cases hp <;> rfl
  · rw [isErr_rfr_eq, isErr_hp_space_validation]
    · fin_cases hp <;> rfl
    · fin_cases hp <;> rfl
  · rw [isErr_etc_eq, isErr_hp_space_validation, validation_float_param p hp q]
    · by_cases hq : 0 < q <;> simp [hq]
    · fin_cases hp <;> rfl
  · rw [isErr_etc_eq, isErr_hp_space_validation]
    · fin_cases hp <;> rfl
    · fin_cases hp <;> rfl
  · rw [isErr_etc_eq, isErr_hp_space_validation]
    · fin_cases hp <;> rfl
    · fin_cases hp <;> rfl
  · rw [isErr_etr_eq, isErr_hp_space_validation, validation_float_param p hp q]
    · by_cases hq : 0 < q <;> simp [hq]
    · fin_cases hp <;> rfl
  · rw [isErr_etr_eq, isErr_hp_space_validation]
    · fin_cases hp <;> rfl
    · fin_cases hp <;> rfl
  · rw [isErr_etr_eq, isErr_hp_space_validation]
    · fin_cases hp <;> rfl
    · fin_cases hp <;> rfl

/-- C6 witness: `n_estimators=-1.0` raises and `n_estimators=100` does not, at
all four family entry points. -/
theorem claim_C6_positive_float_rule_witness :
    ("n_estimators" ∈ floatRuleParams)
  ∧ isErr (random_forest_classifier "rf" Option.none
      (singleKwarg "n_estimators" (some (PyVal.float (mkRat (-1) 1))))) = true
  ∧ isErr (random_forest_classifier "rf" Option.none
      (singleKwarg "n_estimators" (some (PyVal.int 100)))) = false
  ∧ isErr (random_forest_regressor "rf" Option.none
      (singleKwarg "n_estimators" (some (PyVal.float (mkRat (-1) 1))))) = true
  ∧ isErr (random_forest_regressor "rf" Option.none
      (singleKwarg "n_estimators" (some (PyVal.int 100)))) = false
  ∧ isErr (extra_trees_classifier "rf" Option.none
      (singleKwarg "n_estimators" (some (PyVal.float (mkRat (-1) 1))))) = true
  ∧ isErr (extra_trees_classifier "rf" Option.none
      (singleKwarg "n_estimators" (some (PyVal.int 100)))) = false
  ∧ isErr (extra_trees_regressor "rf" Option.none
      (singleKwarg "n_estimators" (some (PyVal.float (mkRat (-1) 1))))) = true
  ∧ isErr (extra_trees_regressor "rf" Option.none
      (singleKwarg "n_estimators" (some (PyVal.int 100)))) = false := by
  refine ⟨by decide, ?_, ?_, ?_, ?_, ?_, ?_, ?_, ?_⟩
  · exact ((claim_C6_positive_float_rule "rf" "n_estimators" (by decide)).1.1 (mkRat (-1) 1)).mpr (by decide)
  · exact (claim_C6_positive_float_rule "rf" "n_estimators" (by decide)).1.2.1 100
  · exact ((claim_C6_positive_float_rule "rf" "n_estimators" (by decide)).2.1.1 (mkRat (-1) 1)).mpr (by decide)
  · exact (claim_C6_positive_float_rule "rf" "n_estimators" (by decide)).2.1.2.1 100
  · exact ((claim_C6_positive_float_rule "rf" "n_estimators" (by decide)).2.2.1.1 (mkRat (-1) 1)).mpr (by decide)
  · exact (claim_C6_positive_float_rule "rf" "n_estimators" (by decide)).2.2.1.2.1 100
  · exact ((claim_C6_positive_float_rule "rf" "n_estimators" (by decide)).2.2.2.1 (mkRat (-1) 1)).mpr (by decide)
  · exact (claim_C6_positive_float_rule "rf" "n_estimators" (by decide)).2.2.2.2.1 100

/-- C7: for each family entry point, whenever construction succeeds, the bound
configuration mapping has exactly the sixteen composer keys plus `criterion`. -/
theorem claim_C7_exact_keys : ∀ (name : String) (criterion : Option PyVal) (kwargs : ForestKwargs),
    builderKeys (random_forest_classifier name criterion kwargs)
      = (random_forest_classifier name criterion kwargs).map (fun _ => forestSpaceKeys)
  ∧ builderKeys (random_forest_regressor name criterion kwargs)
      = (random_forest_regressor name criterion kwargs).map (fun _ => forestSpaceKeys)
  ∧ builderKeys (extra_trees_classifier name criterion kwargs)
      = (extra_trees_classifier name criterion kwargs).map (fun _ => forestSpaceKeys)
  ∧ builderKeys (extra_trees_regressor name criterion kwargs)
      = (extra_trees_regressor name criterion kwargs).map (fun _ => forestSpaceKeys) := by
  intro name criterion kwargs
  refine ⟨?_, ?_, ?_, ?_⟩
  · unfold random_forest_classifier
    cases h : _forest_hp_space (fun msg => name ++ ".rfc_" ++ msg) kwargs with
    | error e => rfl
    | ok sp => rw [hp_space_ok_dict _ _ _ h]; rfl
  · unfold random_forest_regressor
    cases h : _forest_hp_space (fun msg => name ++ ".rfr_" ++ msg) kwargs with
    | error e => rfl
    | ok sp => rw [hp_space_ok_dict _ _ _ h]; rfl
  · unfold extra_trees_classifier
    cases h : _forest_hp_space (fun msg => name ++ ".etc_" ++ msg) kwargs with
    | error e => rfl
    | ok sp => rw [hp_space_ok_dict _ _ _ h]; rfl
  · unfold extra_trees_regressor
    cases h : _forest_hp_space (fun msg => name ++ ".etr_" ++ msg) kwargs with
    | error e => rfl
    | ok sp => rw [hp_space_ok_dict _ _ _ h]; rfl

/-- C8: a default call to each family entry point generates, for every base
name, exactly the leaf names obtained by appending the family tag and the
parameter suffix (with the derived `.gt1` and `.frac` sub-names) to the base
name — in particular the names are a deterministic function of base name,
family tag and parameter name — and these names are pairwise distinct. -/
theorem claim_C8_leaf_names : ∀ name : String,
    builderLeafNames (random_forest_classifier name Option.none {}) = familyLeafNames name ".rfc_"
  ∧ builderLeafNames (random_forest_regressor name Option.none {}) = familyLeafNames name ".rfr_"
  ∧ builderLeafNames (extra_trees_classifier name Option.none {}) = familyLeafNames name ".etc_"
  ∧ builderLeafNames (extra_trees_regressor name Option.none {}) = familyLeafNames name ".etr_"
  ∧ (familyLeafNames name ".rfc_").Nodup
  ∧ (familyLeafNames name ".rfr_").Nodup
  ∧ (familyLeafNames name ".etc_").Nodup
  ∧ (familyLeafNames name ".etr_").Nodup :=
  fun name =>
    ⟨rfc_default_leafNames name, rfr_default_leafNames name, etc_default_leafNames name,
     etr_default_leafNames name, familyLeafNames_nodup name ".rfc_",
     familyLeafNames_nodup name ".rfr_", familyLeafNames_nodup name ".etc_",
     familyLeafNames_nodup name ".etr_"⟩

/-- C9: for every base name, the leaf names generated by
`random_forest_classifier` and by `extra_trees_classifier` are disjoint, since
every name carries the `rfc_` respectively `etc_` family tag. -/
theorem claim_C9_family_tags_disjoint : ∀ (name x : String),
    x ∈ builderLeafNames (random_forest_classifier name Option.none {}) →
      x ∉ builderLeafNames (extra_trees_classifier name Option.none {}) := by
  intro name x hx hy
  rw [rfc_default_leafNames] at hx
  rw [etc_default_leafNames] at hy
  unfold familyLeafNames at hx hy
  obtain ⟨s, hs, rfl⟩ := List.mem_map.mp hx
  obtain ⟨t, ht, heq⟩ := List.mem_map.mp hy
  have hd := congrArg String.data heq
  simp [String.data_append] at hd

/-- C9 witness: a concrete `rfc_` leaf name is not among the `etc_` names. -/
theorem claim_C9_family_tags_disjoint_witness :
    "rf.rfc_n_estimators" ∉ builderLeafNames (extra_trees_classifier "rf" Option.none {}) :=
  claim_C9_family_tags_disjoint "rf" "rf.rfc_n_estimators" (by decide)

/-- C10: `random_state` uses an `is None` test: a call passing any explicit
`random_state` succeeds (the parameter is not validated), the mapping holds the
generated default distribution exactly when the override is `None`, and any
non-`None` override — including the falsy `0` — appears unmodified. -/
theorem claim_C10_random_state_is_none : ∀ (f : String → String) (v : PyVal),
    _forest_hp_space f { random_state := some v }
      = Except.ok (forestDict f { random_state := some v })
  ∧ (forestDict f { random_state := some v }).lookup "random_state"
      = some (if v.isNoneV then _forest_random_state (f "random_state") else Expr.lit v) :=
  fun _ _ => ⟨rfl, rfl⟩
